import Mathlib

/-!
# Campus-map front end: verified model of the API layer and the location picker

Shallow embedding of the CampusNavigation repository's behavioural core:

* `src/lib/api.ts` — boundary/building load and save operations over a
  fetch transport, with module-private localStorage helpers;
* `src/lib/api/buildings.ts` — the building-list loader with its
  response-shape normalizer;
* the `MapSelector` / `LocationMarker` React component — the location
  picker's state synchronisation between map clicks, two numeric input
  fields, and an externally supplied initial position.

JavaScript values parsed from JSON are modelled by the inductive `Json`
(numbers as exact rationals: no arithmetic is performed on them by the
code under study, so IEEE rounding and specials are immaterial and are
outside the model).  Asynchronous fetch calls are modelled by passing the
transport's outcome (`FetchResult`) as an explicit argument; a function
that can reject returns `Except String α`, one that swallows errors
returns `.ok` on every input.  Browser localStorage is modelled as an
association list of parsed values together with an explicit trace of the
read/write operations a function performs.
-/

namespace CampusNav

/-- A JSON value as produced by `JSON.parse` / `response.json()` in the
browser.  Object fields are kept in order; `lookup` takes the first
binding of a key, matching unique-key objects. -/
inductive Json where
  | null : Json
  | bool (b : Bool) : Json
  | num (q : ℚ) : Json
  | str (s : String) : Json
  | arr (elems : List Json) : Json
  | obj (fields : List (String × Json)) : Json

/-- A JavaScript value as seen by the code after a property access:
either `undefined` or a JSON value.  (`null` is a `Json` value.) -/
inductive JsValue where
  | undefined : JsValue
  | val (j : Json) : JsValue

/-- Property access `v.k` in JavaScript: throws a `TypeError` on `null`,
returns the field on an object that has it, and `undefined` on any other
JSON value (primitives and arrays have no such own property). -/
def Json.member (v : Json) (k : String) : Except String JsValue :=
  match v with
  | .null => .error ("TypeError: Cannot read properties of null (reading " ++ k ++ ")")
  | .obj fields =>
    match fields.lookup k with
    | some j => .ok (.val j)
    | none => .ok .undefined
  | _ => .ok .undefined

/-- JavaScript truthiness of a value: `undefined`, `null`, `false`, `0`
and the empty string are falsy; every other value in the model is truthy. -/
def JsValue.truthy : JsValue → Bool
  | .undefined => false
  | .val .null => false
  | .val (.bool b) => b
  | .val (.num q) => decide (q ≠ 0)
  | .val (.str s) => decide (s ≠ "")
  | .val (.arr _) => true
  | .val (.obj _) => true

/-- `Array.isArray`. -/
def Json.isArray : Json → Bool
  | .arr _ => true
  | _ => false

/-- Outcome of one `fetch` call as observed by the caller: either the
promise rejects (network failure), or a response arrives carrying its
`ok` flag, its `statusText`, and the result of `response.json()` (which
itself may reject when the body is not valid JSON). -/
inductive FetchResult where
  | reject (msg : String) : FetchResult
  | resp (ok : Bool) (statusText : String) (body : Except String Json) : FetchResult

/-- The transport-level failures named by the spec: the fetch promise
rejecting, or a response whose `ok` flag is false. -/
def FetchResult.transportFailed : FetchResult → Bool
  | .reject _ => true
  | .resp ok _ _ => !ok

namespace Buildings

/-- The response normalizer inlined in `loadBuildings`
(`src/lib/api/buildings.ts`, lines 23–37): a bare array is returned
unchanged; a non-null object yields the first array found under the keys
`buildings`, `data`, `results`, checked in that order; every other shape
yields the empty array.  Total: no shape raises an error. -/
def normalizeBuildingsResponse (data : Json) : List Json :=
  match data with
  | .arr xs => xs
  | .obj fields =>
    match fields.lookup "buildings" with
    | some (.arr xs) => xs
    | _ =>
      match fields.lookup "data" with
      | some (.arr xs) => xs
      | _ =>
        match fields.lookup "results" with
        | some (.arr xs) => xs
        | _ => []
  | _ => []

end Buildings

/-- First array found among the given keys of an object's field list. -/
def firstSequenceUnder (fields : List (String × Json)) : List String → Option (List Json)
  | [] => none
  | k :: ks =>
    match fields.lookup k with
    | some (.arr xs) => some xs
    | _ => firstSequenceUnder fields ks

/-- The normalizer contract in the spec's words: "if the value is itself a
sequence, return it unchanged; otherwise, if it is a keyed object, check
for a sequence under the key `buildings`, then `data`, then `results`, in
that order, returning the first sequence found; otherwise return an empty
sequence." -/
def normalizerContract (v : Json) : List Json :=
  match v with
  | .arr xs => xs
  | .obj fields => (firstSequenceUnder fields ["buildings", "data", "results"]).getD []
  | _ => []

/-- C1: for every parsed JSON value, the response normalizer of
`loadBuildings` returns the value itself when it is an array; otherwise,
for a non-null object, the first array among the fields `buildings`,
`data`, `results` in that order; otherwise the empty array — and, being a
total function, it never raises an error for an unrecognized shape. -/
theorem normalizeBuildingsResponse_matches_contract (v : Json) :
    Buildings.normalizeBuildingsResponse v = normalizerContract v := by
  cases v with
  | obj fields =>
    simp only [Buildings.normalizeBuildingsResponse, normalizerContract, firstSequenceUnder]
    rcases hb : fields.lookup "buildings" with _ | jb <;> try cases jb
    all_goals try (rcases hd : fields.lookup "data" with _ | jd <;> try cases jd)
    all_goals try (rcases hr : fields.lookup "results" with _ | jr <;> try cases jr)
    all_goals rfl
  | null => rfl
  | bool b => rfl
  | num q => rfl
  | str s => rfl
  | arr xs => rfl

/-- A boundary polygon: an ordered list of `[latitude, longitude]` pairs,
numbers as exact rationals. -/
abbrev Boundaries := List (ℚ × ℚ)

/-- `JSON.stringify`/`JSON.parse` image of a boundary array: each pair
becomes a two-element JSON array. -/
def encodeBoundaries (b : Boundaries) : Json :=
  .arr (b.map fun p => .arr [.num p.1, .num p.2])

/-- Inverse reading of `encodeBoundaries`, used to state that a stored
boundary array comes back as the identical ordered sequence of pairs. -/
def decodePairList : List Json → Option Boundaries
  | [] => some []
  | .arr [.num a, .num b] :: rest => (decodePairList rest).map (fun t => (a, b) :: t)
  | _ => none

/-- Inverse reading of `encodeBoundaries` at the top level. -/
def decodeBoundaries : Json → Option Boundaries
  | .arr xs => decodePairList xs
  | _ => none

/-- Browser localStorage, modelled as an association list from keys to the
stored JSON values (the `JSON.stringify`/`JSON.parse` serialisation that
the browser applies to produce strings is abstracted away; `lookup` takes
the most recent binding, matching `setItem` overwrite semantics). -/
abbrev Storage := List (String × Json)

/-- One localStorage access performed by a function, recorded so that
theorems can speak about which functions touch browser storage at all. -/
inductive StorageOp where
  | read (key : String) : StorageOp
  | write (key : String) (value : Json) : StorageOp

namespace Api

/-- `LOCAL_STORAGE_KEY` of `src/lib/api.ts`. -/
def LOCAL_STORAGE_KEY : String := "yabatech-campus-boundaries"

/-- `saveToLocalStorage` (`src/lib/api.ts`, lines 22–31): stores the
JSON-encoded boundary array under `LOCAL_STORAGE_KEY`.  Returns the new
storage together with the trace of operations performed. -/
def saveToLocalStorage (boundaries : Boundaries) (st : Storage) :
    Storage × List StorageOp :=
  ((LOCAL_STORAGE_KEY, encodeBoundaries boundaries) :: st,
   [.write LOCAL_STORAGE_KEY (encodeBoundaries boundaries)])

/-- `loadFromLocalStorage` (`src/lib/api.ts`, lines 37–54): reads
`LOCAL_STORAGE_KEY` and returns the parsed value when it is an array of
at least 3 points, `null` (here `none`) otherwise. -/
def loadFromLocalStorage (st : Storage) : Option Json × List StorageOp :=
  match st.lookup LOCAL_STORAGE_KEY with
  | some v =>
    (match v with
     | .arr xs => if 3 ≤ xs.length then some (Json.arr xs) else none
     | _ => none,
     [.read LOCAL_STORAGE_KEY])
  | none => (none, [.read LOCAL_STORAGE_KEY])

/-- The `try` block of `loadBoundaries` (`src/lib/api.ts`, lines 61–69):
fetch `/api/boundaries`, throw on a not-ok response, parse the body and
return `data.boundaries`. -/
def loadBoundariesTry (r : FetchResult) : Except String JsValue :=
  match r with
  | .reject msg => .error msg
  | .resp ok statusText body =>
    if ok then
      match body with
      | .error msg => .error msg
      | .ok data => data.member "boundaries"
    else .error ("Failed to load boundaries: " ++ statusText)

/-- `loadBoundaries` (`src/lib/api.ts`, lines 60–74).  The `catch` block
logs and returns `null`.  The body performs no localStorage access —
`loadFromLocalStorage` is never called — so the storage component is
returned unchanged with an empty operation trace. -/
def loadBoundaries (r : FetchResult) (st : Storage) :
    Except String JsValue × Storage × List StorageOp :=
  (match loadBoundariesTry r with
   | .ok v => .ok v
   | .error _ => .ok (.val .null),
   st, [])

/-- The request body `JSON.stringify({ boundaries })` sent by
`saveBoundaries` (`src/lib/api.ts`, line 88). -/
def saveBoundariesRequestBody (boundaries : Boundaries) : Json :=
  .obj [("boundaries", encodeBoundaries boundaries)]

/-- The `try` block of `saveBoundaries` (`src/lib/api.ts`, lines 82–96):
POST the boundaries, throw on a not-ok response, parse the body and
return `data.message || "Boundaries saved successfully"`. -/
def saveBoundariesTry (r : FetchResult) : Except String JsValue :=
  match r with
  | .reject msg => .error msg
  | .resp ok statusText body =>
    if ok then
      match body with
      | .error msg => .error msg
      | .ok data =>
        match data.member "message" with
        | .error msg => .error msg
        | .ok mv =>
          .ok (if mv.truthy then mv else .val (.str "Boundaries saved successfully"))
    else .error ("Failed to save boundaries: " ++ statusText)

/-- `saveBoundaries` (`src/lib/api.ts`, lines 81–101).  The `catch` block
logs and returns the string `"Error: " ++ message`.  The body performs no
localStorage access — `saveToLocalStorage` is never called — so the
storage component is returned unchanged with an empty operation trace. -/
def saveBoundaries (_boundaries : Boundaries) (r : FetchResult) (st : Storage) :
    Except String JsValue × Storage × List StorageOp :=
  (match saveBoundariesTry r with
   | .ok v => .ok v
   | .error msg => .ok (.val (.str ("Error: " ++ msg))),
   st, [])

/-- The `try` block of `loadBuildings` (`src/lib/api.ts`, lines 108–125):
fetch `/api/buildings`, throw on a not-ok response, parse and return the
whole body. -/
def loadBuildingsTry (r : FetchResult) : Except String JsValue :=
  match r with
  | .reject msg => .error msg
  | .resp ok statusText body =>
    if ok then
      match body with
      | .error msg => .error msg
      | .ok data => .ok (.val data)
    else .error ("Failed to load buildings: " ++ statusText)

/-- `loadBuildings` (`src/lib/api.ts`, lines 107–130): the `catch` block
logs and returns `null`. -/
def loadBuildings (r : FetchResult) : Except String JsValue :=
  match loadBuildingsTry r with
  | .ok v => .ok v
  | .error _ => .ok (.val .null)

/-- The `try` block of `loadBuildingBySlug` (`src/lib/api.ts`, lines
138–153): fetch the per-slug endpoint, throw on a not-ok response, parse
and return the whole body. -/
def loadBuildingBySlugTry (_slug : String) (r : FetchResult) : Except String JsValue :=
  match r with
  | .reject msg => .error msg
  | .resp ok statusText body =>
    if ok then
      match body with
      | .error msg => .error msg
      | .ok data => .ok (.val data)
    else .error ("Failed to load building: " ++ statusText)

/-- `loadBuildingBySlug` (`src/lib/api.ts`, lines 137–158): the `catch`
block logs and returns `null`. -/
def loadBuildingBySlug (slug : String) (r : FetchResult) : Except String JsValue :=
  match loadBuildingBySlugTry slug r with
  | .ok v => .ok v
  | .error _ => .ok (.val .null)

/-- `createBuilding` (`src/lib/api.ts`, lines 165–185): the `catch` block
logs and re-throws the caught error. -/
def createBuilding (_buildingData : Json) (r : FetchResult) : Except String JsValue :=
  match r with
  | .reject msg => .error msg
  | .resp ok statusText body =>
    if ok then
      match body with
      | .error msg => .error msg
      | .ok data => .ok (.val data)
    else .error ("Failed to create building: " ++ statusText)

/-- `updateBuilding` (`src/lib/api.ts`, lines 193–213): the `catch` block
logs and re-throws the caught error. -/
def updateBuilding (_slug : String) (_buildingData : Json) (r : FetchResult) :
    Except String JsValue :=
  match r with
  | .reject msg => .error msg
  | .resp ok statusText body =>
    if ok then
      match body with
      | .error msg => .error msg
      | .ok data => .ok (.val data)
    else .error ("Failed to update building: " ++ statusText)

/-- `uploadBuildingImage` (`src/lib/api.ts`, lines 220–239): the `catch`
block logs and re-throws the caught error. -/
def uploadBuildingImage (_slug : String) (r : FetchResult) : Except String JsValue :=
  match r with
  | .reject msg => .error msg
  | .resp ok statusText body =>
    if ok then
      match body with
      | .error msg => .error msg
      | .ok data => .ok (.val data)
    else .error ("Failed to upload image: " ++ statusText)

end Api

namespace Buildings

/-- The `try` block of `loadBuildings` (`src/lib/api/buildings.ts`,
lines 8–37): fetch `/api/buildings`, throw on a not-ok response, parse
the body and normalize its shape. -/
def loadBuildingsTry (r : FetchResult) : Except String (List Json) :=
  match r with
  | .reject msg => .error msg
  | .resp ok statusText body =>
    if ok then
      match body with
      | .error msg => .error msg
      | .ok data => .ok (normalizeBuildingsResponse data)
    else .error ("Failed to load buildings: " ++ statusText)

/-- `loadBuildings` (`src/lib/api/buildings.ts`, lines 7–42): the `catch`
block logs and then re-throws the caught error (`throw error`, line 40),
so every failure propagates to the caller. -/
def loadBuildings (r : FetchResult) : Except String (List Json) :=
  match loadBuildingsTry r with
  | .ok v => .ok v
  | .error msg => .error msg

end Buildings

/-- The boundary triple used as a concrete example throughout the spec:
`[[6.5, 3.3], [6.5, 3.4], [6.6, 3.3]]`. -/
def sampleBoundaries : Boundaries := [(13/2, 33/10), (13/2, 17/5), (33/5, 33/10)]

/-- A localStorage state already holding a valid (three-point) boundary
array under the module's key. -/
def sampleStorage : Storage := [(Api.LOCAL_STORAGE_KEY, encodeBoundaries sampleBoundaries)]

/-- C2 (counterexample): `loadBuildings` of `src/lib/api/buildings.ts` is a
load operation, yet on a rejecting transport it re-raises the caught error
instead of returning `null` — refuting the claim that a caught error is
never re-raised by a load operation. -/
theorem buildings_loadBuildings_rethrows :
    Buildings.loadBuildings (FetchResult.reject "network unreachable") =
      Except.error "network unreachable" := rfl

/-- C2 (amended): the load operations of `src/lib/api.ts`
(`loadBoundaries`, `loadBuildings`, `loadBuildingBySlug`) never re-raise
and convert any transport failure to `null`, but the `loadBuildings` of
`src/lib/api/buildings.ts` re-raises every caught failure to its caller,
like the building create/update/upload operations do. -/
theorem load_operations_error_policy (slug : String) (r : FetchResult) (st : Storage) :
    (∀ e, (Api.loadBoundaries r st).1 ≠ Except.error e) ∧
    (∀ e, Api.loadBuildings r ≠ Except.error e) ∧
    (∀ e, Api.loadBuildingBySlug slug r ≠ Except.error e) ∧
    (r.transportFailed = true →
      (Api.loadBoundaries r st).1 = Except.ok (.val .null) ∧
      Api.loadBuildings r = Except.ok (.val .null) ∧
      Api.loadBuildingBySlug slug r = Except.ok (.val .null) ∧
      ∃ e, Buildings.loadBuildings r = Except.error e) := by
  refine ⟨?_, ?_, ?_, ?_⟩
  · intro e
    simp only [Api.loadBoundaries]
    cases h : Api.loadBoundariesTry r <;> simp
  · intro e
    simp only [Api.loadBuildings]
    cases h : Api.loadBuildingsTry r <;> simp
  · intro e
    simp only [Api.loadBuildingBySlug]
    cases h : Api.loadBuildingBySlugTry slug r <;> simp
  · intro hf
    cases r with
    | reject m => exact ⟨rfl, rfl, rfl, m, rfl⟩
    | resp ok statusText body =>
      cases ok with
      | true => simp [FetchResult.transportFailed] at hf
      | false => exact ⟨rfl, rfl, rfl, "Failed to load buildings: " ++ statusText, rfl⟩

/-- C2 (witness): at a concrete rejecting transport, the three api.ts load
operations all return `null` while the buildings-module loader throws. -/
theorem load_operations_error_policy_witness :
    (Api.loadBoundaries (.reject "network unreachable") []).1 = Except.ok (.val .null) ∧
    Api.loadBuildings (.reject "network unreachable") = Except.ok (.val .null) ∧
    Api.loadBuildingBySlug "main-hall" (.reject "network unreachable") =
      Except.ok (.val .null) ∧
    ∃ e, Buildings.loadBuildings (.reject "network unreachable") = Except.error e :=
  (load_operations_error_policy "main-hall" (.reject "network unreachable") []).2.2.2 rfl

/-- C3 (counterexample): with the server call path unavailable and a valid
three-point boundary array sitting in localStorage under
`yabatech-campus-boundaries`, `loadBoundaries` still returns `null`,
leaves the storage untouched and performs no storage operation — even
though `loadFromLocalStorage` applied to that storage would have produced
the stored array.  The fallback is never exercised. -/
theorem loadBoundaries_ignores_localStorage_fallback :
    Api.loadBoundaries (FetchResult.reject "network unreachable") sampleStorage =
      (Except.ok (.val .null), sampleStorage, []) ∧
    (Api.loadFromLocalStorage sampleStorage).1 = some (encodeBoundaries sampleBoundaries) :=
  ⟨rfl, rfl⟩

/-- C3 (amended): the module defines localStorage helpers dedicated to the
key `yabatech-campus-boundaries` — `saveToLocalStorage` writes exactly that
key and `loadFromLocalStorage` reads exactly that key — but neither
`loadBoundaries` nor `saveBoundaries` ever invokes them: both leave the
storage unchanged and perform no read or write in any situation, returning
`null` (respectively an `"Error: ..."` string) when the server path fails. -/
theorem boundary_storage_policy (r : FetchResult) (st : Storage) (b : Boundaries) :
    (Api.loadBoundaries r st).2.1 = st ∧
    (Api.loadBoundaries r st).2.2 = [] ∧
    (Api.saveBoundaries b r st).2.1 = st ∧
    (Api.saveBoundaries b r st).2.2 = [] ∧
    (Api.saveToLocalStorage b st).2 =
      [.write Api.LOCAL_STORAGE_KEY (encodeBoundaries b)] ∧
    (Api.loadFromLocalStorage st).2 = [.read Api.LOCAL_STORAGE_KEY] := by
  refine ⟨rfl, rfl, rfl, rfl, rfl, ?_⟩
  simp only [Api.loadFromLocalStorage]
  cases st.lookup Api.LOCAL_STORAGE_KEY <;> rfl

/-- C7 (counterexample): on a successful response whose body is
`{"message": ""}` the `message` field is present, yet `saveBoundaries`
returns the fixed success string rather than the server's message field,
because `data.message || ...` falls through on every falsy value. -/
theorem saveBoundaries_empty_message_counterexample :
    (Api.saveBoundaries sampleBoundaries
        (.resp true "OK" (.ok (.obj [("message", .str "")]))) []).1 =
      Except.ok (.val (.str "Boundaries saved successfully")) ∧
    (Json.obj [("message", .str "")]).member "message" = Except.ok (.val (.str "")) ∧
    ("Boundaries saved successfully" : String) ≠ "" := ⟨rfl, rfl, by decide⟩

/-- C7 (amended): for every boundaries argument, when the transport fails
(fetch rejects or the response is not ok) `saveBoundaries` returns a
string beginning with `"Error: "` and never throws; on a successful
response carrying an object body it returns the server's `message` field
when that value is truthy, and the fixed success string otherwise (field
absent or falsy, e.g. the empty string). -/
theorem saveBoundaries_error_policy (b : Boundaries) (r : FetchResult) (st : Storage) :
    (∀ e, (Api.saveBoundaries b r st).1 ≠ Except.error e) ∧
    (r.transportFailed = true →
      ∃ s, (Api.saveBoundaries b r st).1 = Except.ok (.val (.str ("Error: " ++ s)))) ∧
    (∀ statusText fields, r = .resp true statusText (.ok (.obj fields)) →
      (Api.saveBoundaries b r st).1 =
        Except.ok (match fields.lookup "message" with
          | some m =>
            if (JsValue.val m).truthy then JsValue.val m
            else .val (.str "Boundaries saved successfully")
          | none => .val (.str "Boundaries saved successfully"))) := by
  refine ⟨?_, ?_, ?_⟩
  · intro e
    simp only [Api.saveBoundaries]
    cases h : Api.saveBoundariesTry r <;> simp
  · intro hf
    cases r with
    | reject m => exact ⟨m, rfl⟩
    | resp ok statusText body =>
      cases ok with
      | true => simp [FetchResult.transportFailed] at hf
      | false => exact ⟨"Failed to save boundaries: " ++ statusText, rfl⟩
  · intro statusText fields hr
    subst hr
    simp only [Api.saveBoundaries, Api.saveBoundariesTry, Json.member, if_true]
    cases hm : fields.lookup "message" <;> simp [hm, JsValue.truthy]

/-- C7 (witness): at the spec's boundary triple and a concrete rejecting
transport, the result is an `"Error: ..."` string. -/
theorem saveBoundaries_error_policy_witness :
    ∃ s, (Api.saveBoundaries sampleBoundaries (.reject "connection refused") []).1 =
      Except.ok (.val (.str ("Error: " ++ s))) :=
  (saveBoundaries_error_policy sampleBoundaries (.reject "connection refused") []).2.1 rfl

/-- Decoding inverts encoding, pair by pair. -/
theorem decodePairList_encode (b : Boundaries) :
    decodePairList (b.map fun p => .arr [.num p.1, .num p.2]) = some b := by
  induction b with
  | nil => rfl
  | cons p t ih => simp [decodePairList, ih]

/-- C8: boundary round-trip against a stable echoing backend.
`saveBoundaries` sends the boundary array under the key `boundaries`
(`saveBoundariesRequestBody`); when `loadBoundaries` then receives a
response whose body is exactly what was stored, it returns the
`boundaries` field of that response, which decodes back to the identical
ordered sequence of coordinate pairs. -/
theorem boundaries_roundtrip (b : Boundaries) (st : Storage) :
    Api.saveBoundariesRequestBody b = Json.obj [("boundaries", encodeBoundaries b)] ∧
    (Api.loadBoundaries (.resp true "OK" (.ok (Api.saveBoundariesRequestBody b))) st).1 =
      Except.ok (.val (encodeBoundaries b)) ∧
    decodeBoundaries (encodeBoundaries b) = some b := by
  refine ⟨rfl, rfl, ?_⟩
  simp [decodeBoundaries, encodeBoundaries, decodePairList_encode b]

/-- A coordinate pair `{lat, lng}`. -/
structure LatLng where
  lat : ℚ
  lng : ℚ
deriving DecidableEq

/-- Modelled from the spec: the `Building` record type is imported from
`@/lib/types`, whose file is not among the provided sources; per the spec
it is identified by a unique `slug` and a `name` and carries a
`coordinates` pair and an optional image reference.  The map selector
reads only `name` and `coordinates`, and only while rendering. -/
structure Building where
  slug : String
  name : String
  coordinates : LatLng
  image : Option String

/-- The fixed default campus coordinate `{lat: 6.51771, lng: 3.37534}`
used when no initial position is supplied. -/
def defaultCampusPosition : LatLng := ⟨651771 / 100000, 337534 / 100000⟩

/-- Digits-to-number reading used by the `parseFloat` model. -/
def digitsVal (ds : List Char) : ℕ :=
  ds.foldl (fun n c => 10 * n + (c.toNat - 48)) 0

/-- JavaScript `parseFloat`, restricted to finite values: skip leading
whitespace, read an optional sign, then the longest run of digits with an
optional decimal point and an optional well-formed exponent; return `none`
(JS: `NaN`) when not even one digit of mantissa is found, and otherwise
the exact rational value of the consumed literal.  (IEEE rounding and the
`Infinity` literal are outside the model: the code under study performs no
arithmetic on the parsed number, it only stores and reports it.) -/
def jsParseFloat (s : String) : Option ℚ :=
  let cs := s.toList.dropWhile fun c => c == ' ' || c == '\t' || c == '\n' || c == '\r'
  let signSplit : Bool × List Char :=
    match cs with
    | '-' :: t => (true, t)
    | '+' :: t => (false, t)
    | _ => (false, cs)
  let neg := signSplit.1
  let cs1 := signSplit.2
  let ip := cs1.takeWhile Char.isDigit
  let cs2 := cs1.dropWhile Char.isDigit
  let fracSplit : List Char × List Char :=
    match cs2 with
    | '.' :: t => (t.takeWhile Char.isDigit, t.dropWhile Char.isDigit)
    | _ => ([], cs2)
  let fp := fracSplit.1
  let cs3 := fracSplit.2
  if ip.isEmpty && fp.isEmpty then none
  else
    let mant : ℚ := (digitsVal ip : ℚ) + (digitsVal fp : ℚ) / ((10 : ℚ) ^ fp.length)
    let scaled : ℚ :=
      match cs3 with
      | 'e' :: t | 'E' :: t =>
        let expSplit : Bool × List Char :=
          match t with
          | '-' :: u => (true, u)
          | '+' :: u => (false, u)
          | _ => (false, t)
        let ed := expSplit.2.takeWhile Char.isDigit
        if ed.isEmpty then mant
        else if expSplit.1 then mant / (10 : ℚ) ^ digitsVal ed
        else mant * (10 : ℚ) ^ digitsVal ed
      | _ => mant
    some (if neg then -scaled else scaled)

/-- JavaScript `String.prototype.startsWith`, character by character. -/
def charsStartWith : List Char → List Char → Bool
  | [], _ => true
  | _ :: _, [] => false
  | p :: ps, c :: cs => p == c && charsStartWith ps cs

/-- `s.startsWith p` in JavaScript. -/
def jsStartsWith (s p : String) : Bool := charsStartWith p.toList s.toList

namespace MapSelector

/-- The observable state of the mounted `MapSelector` component together
with its inner `LocationMarker` (`src/unnamed/part_002`): `markerPos` is
`LocationMarker`'s `position` state (the map marker), `selectedPos` is
`MapSelector`'s `selectedPosition` state (the value shown by the two
numeric input fields), and `center`/`zoom` are the Leaflet map view. -/
structure SelectorState where
  markerPos : LatLng
  selectedPos : LatLng
  center : LatLng
  zoom : ℚ
deriving DecidableEq

/-- The user-visible events the component reacts to: a change of the
external `initialPosition` prop (the event carries the resulting
`defaultPosition`, i.e. the new prop value when present), a map-surface
click, and an edit of the latitude or longitude numeric field carrying the
entered text. -/
inductive UiEvent where
  | propChange (p : LatLng)
  | mapClick (p : LatLng)
  | editLat (s : String)
  | editLng (s : String)

/-- First render: `defaultPosition = initialPosition || fixed default`;
`selectedPosition`, `LocationMarker`'s `position` and the map view are all
initialised from it, at zoom 17. -/
def init (initialPosition : Option LatLng) : SelectorState :=
  let d := initialPosition.getD defaultCampusPosition
  { markerPos := d, selectedPos := d, center := d, zoom := 17 }

/-- One event step of the mounted component, returning the new state and
the list of `onLocationSelect` invocations it triggers (in order):

* prop change — `LocationMarker`'s effect (lines 97–102) sets `position`
  and calls `map.flyTo(initialPosition, map.getZoom())`; nothing updates
  `selectedPosition` and no callback fires;
* map click (lines 90–94) — `setPosition`, then `onLocationSelect`, which
  is `handleLocationSelect` (lines 121–124): `setSelectedPosition` plus
  the external callback;
* field edit (lines 168–175, 185–192) — `parseFloat` the text; on `NaN`
  do nothing, otherwise merge the edited axis into `selectedPosition` and
  fire the external callback with the merged pair. -/
def step (_buildings : List Building) (st : SelectorState) :
    UiEvent → SelectorState × List LatLng
  | .propChange p => ({ st with markerPos := p, center := p }, [])
  | .mapClick p => ({ st with markerPos := p, selectedPos := p }, [p])
  | .editLat s =>
    match jsParseFloat s with
    | none => (st, [])
    | some v => ({ st with selectedPos := ⟨v, st.selectedPos.lng⟩ }, [⟨v, st.selectedPos.lng⟩])
  | .editLng s =>
    match jsParseFloat s with
    | none => (st, [])
    | some v => ({ st with selectedPos := ⟨st.selectedPos.lat, v⟩ }, [⟨st.selectedPos.lat, v⟩])

/-- A finite sequence of events, with the concatenated callback trace. -/
def run (buildings : List Building) (st : SelectorState) :
    List UiEvent → SelectorState × List LatLng
  | [] => (st, [])
  | e :: es =>
    let r1 := step buildings st e
    let r2 := run buildings r1.1 es
    (r2.1, r1.2 ++ r2.2)

end MapSelector

open MapSelector in
/-- C4 (counterexample): with `initialPosition` initially `{6.5, 3.3}` and
the prop changing to `{6.6, 3.4}` after mount, the map marker moves to the
new value but the selected position backing the two numeric input fields
keeps the old value — the claim that the single value reflected by marker
and fields is reset does not hold. -/
theorem propChange_does_not_reset_input_fields :
    (step [] (init (some ⟨13/2, 33/10⟩)) (.propChange ⟨33/5, 17/5⟩)).1.markerPos =
      ⟨33/5, 17/5⟩ ∧
    (step [] (init (some ⟨13/2, 33/10⟩)) (.propChange ⟨33/5, 17/5⟩)).1.selectedPos =
      ⟨13/2, 33/10⟩ ∧
    (⟨13/2, 33/10⟩ : LatLng) ≠ ⟨33/5, 17/5⟩ := by
  refine ⟨rfl, rfl, ?_⟩
  intro h
  have h1 := congrArg LatLng.lat h
  norm_num at h1

open MapSelector in
/-- C4 (amended): for every change of the external `initialPosition` prop
after first render, the marker position is reset to the new prop value and
the map view is recentered to it while the zoom stays unchanged, without
user action and without firing the callback; the numeric input fields'
selected position, however, keeps its previous value. -/
theorem propChange_updates_marker_and_view_only (bs : List Building)
    (st : SelectorState) (p : LatLng) :
    step bs st (.propChange p) = ({ st with markerPos := p, center := p }, []) := rfl

open MapSelector in
/-- C5: for every finite sequence of map-surface clicks, each click makes
the clicked coordinate both the marker position and the selected position
and fires `onLocationSelect` exactly once with it, so n clicks produce
exactly the n clicked values, in click order, as the callback trace. -/
theorem map_clicks_fire_callback_in_order (bs : List Building) (st : SelectorState)
    (ps : List LatLng) :
    (run bs st (ps.map UiEvent.mapClick)).2 = ps ∧
    (∀ p, step bs st (.mapClick p) =
      ({ st with markerPos := p, selectedPos := p }, [p])) := by
  refine ⟨?_, fun p => rfl⟩
  induction ps generalizing st with
  | nil => rfl
  | cons p t ih => simp [run, step, ih]

open MapSelector in
/-- C6: for every edit of a numeric field, when the text does not parse
(`parseFloat` yields `NaN`) the state is unchanged and no callback fires;
when it parses, only the edited axis of the selected position is replaced
and the callback fires once with the merged pair. -/
theorem field_edit_policy (bs : List Building) (st : SelectorState) (s : String) :
    (jsParseFloat s = none →
      step bs st (.editLat s) = (st, []) ∧
      step bs st (.editLng s) = (st, [])) ∧
    (∀ v, jsParseFloat s = some v →
      step bs st (.editLat s) =
        ({ st with selectedPos := ⟨v, st.selectedPos.lng⟩ }, [⟨v, st.selectedPos.lng⟩]) ∧
      step bs st (.editLng s) =
        ({ st with selectedPos := ⟨st.selectedPos.lat, v⟩ }, [⟨st.selectedPos.lat, v⟩])) := by
  constructor
  · intro h
    constructor <;> simp [step, h]
  · intro v h
    constructor <;> simp [step, h]

open MapSelector in
/-- C6 (witness): editing latitude to `"abc"` leaves the state untouched
and fires no callback; editing it to `"6.6"` while longitude holds
`3.37534` reports `{lat: 6.6, lng: 3.37534}` exactly once. -/
theorem field_edit_policy_witness :
    step [] (init none) (.editLat "abc") = (init none, []) ∧
    step [] (init none) (.editLat "6.6") =
      ({ init none with selectedPos := ⟨33/5, 337534/100000⟩ },
       [⟨33/5, 337534/100000⟩]) := by
  constructor
  · exact ((field_edit_policy [] (init none) "abc").1 rfl).1
  · have hp : jsParseFloat "6.6" = some (33/5) := by
      have h : jsParseFloat "6.6" = some ((6 : ℚ) + 6 / 10 ^ 1) := rfl
      rw [h]; norm_num
    exact ((field_edit_policy [] (init none) "6.6").2 (33/5) hp).1

/-- One step never depends on the buildings supplied for rendering. -/
theorem step_ignores_buildings (bs1 bs2 : List Building) (st : MapSelector.SelectorState)
    (e : MapSelector.UiEvent) :
    MapSelector.step bs1 st e = MapSelector.step bs2 st e := by
  cases e <;> rfl

/-- A whole event run never depends on the buildings supplied. -/
theorem run_ignores_buildings (bs1 bs2 : List Building) (st : MapSelector.SelectorState)
    (es : List MapSelector.UiEvent) :
    MapSelector.run bs1 st es = MapSelector.run bs2 st es := by
  induction es generalizing st with
  | nil => rfl
  | cons e t ih =>
    simp only [MapSelector.run]
    rw [step_ignores_buildings bs1 bs2 st e, ih]

/-- C9: the buildings list supplied to `MapSelector` never affects the
selected-position state — two runs differing only in the buildings prop
produce, under the same event sequence, the identical selected position
and the identical sequence of `onLocationSelect` invocations (the building
markers are render-only and carry no event handlers). -/
theorem buildings_prop_noninterference (bs1 bs2 : List Building)
    (st : MapSelector.SelectorState) (es : List MapSelector.UiEvent) :
    (MapSelector.run bs1 st es).1.selectedPos = (MapSelector.run bs2 st es).1.selectedPos ∧
    (MapSelector.run bs1 st es).2 = (MapSelector.run bs2 st es).2 := by
  rw [run_ignores_buildings bs1 bs2 st es]
  exact ⟨rfl, rfl⟩

/-- The backend base URL: the environment variable when set and non-empty,
else the fixed hosted URL (`src/lib/api.ts`, lines 16 and 252). -/
def apiBaseUrl (env : Option String) : String :=
  match env with
  | some s => if s = "" then "https://navigationbackend.onrender.com" else s
  | none => "https://navigationbackend.onrender.com"

/-- `getBuildingImageUrl` (`src/lib/api.ts`, lines 246–254): a slug that
already starts with `http` is returned unchanged; otherwise the backend
base URL, `/buildings/`, the slug and `/image` are concatenated.  Total:
it never throws. -/
def getBuildingImageUrl (env : Option String) (slug : String) : String :=
  if jsStartsWith slug "http" then slug
  else apiBaseUrl env ++ "/buildings/" ++ slug ++ "/image"

/-- C10: for every slug, `getBuildingImageUrl` returns the slug itself
whenever it starts with `http`, and otherwise the backend base URL
concatenated with `/buildings/`, the slug, and `/image`; being a total
function it never throws. -/
theorem getBuildingImageUrl_spec (env : Option String) (slug : String) :
    (jsStartsWith slug "http" = true → getBuildingImageUrl env slug = slug) ∧
    (jsStartsWith slug "http" = false →
      getBuildingImageUrl env slug =
        apiBaseUrl env ++ "/buildings/" ++ slug ++ "/image") := by
  constructor <;> intro h <;> simp [getBuildingImageUrl, h]

/-- C10 (witness): a complete URL is passed through unchanged; a bare slug
is expanded against the default backend URL. -/
theorem getBuildingImageUrl_spec_witness :
    getBuildingImageUrl none "https://cdn.example.com/x.png" =
      "https://cdn.example.com/x.png" ∧
    getBuildingImageUrl none "main-hall" =
      "https://navigationbackend.onrender.com" ++ "/buildings/" ++ "main-hall" ++ "/image" := by
  constructor
  · exact (getBuildingImageUrl_spec none "https://cdn.example.com/x.png").1 (by decide)
  · exact (getBuildingImageUrl_spec none "main-hall").2 (by decide)

end CampusNav
